import Mathlib

/-!
Shallow embedding of `internal/provider/user_resource.go` from the
terraform-provider-pterodactyl repository: the user-resource reconciler
(Create / Read / Update / Delete / ImportState / Configure) over the
Pterodactyl panel API client, together with theorems settling the
specification claims about it.

Modelling conventions:
* `types.Int32` / `types.String` of the plugin framework are three-state
  attribute values (null / unknown / known), with `ValueInt32` /
  `ValueString` returning the Go zero value on null or unknown, exactly as
  the framework does.
* `time.Time` is a broken-down `GoTime`; `GoTime.format` is the
  RFC 3339 rendering performed by `Format(time.RFC3339)`.
* The remote client is a record of functions (`Except String` models the
  Go `(value, err)` pair; the error carries `err.Error()`).
* Each lifecycle operation returns the response (diagnostics plus the
  optional record written to state; `none` means the operation wrote no
  record) and the trace of remote calls it issued, so that claims about
  which calls happen are statable.
* The Go methods read the remote client from the receiver field set by
  `Configure`; the embedding passes that configured client explicitly.
-/

namespace Pterodactyl

/-- Severity of a host-facing diagnostic. -/
inductive Severity where
  | error
  | warning
deriving DecidableEq, Repr

/-- One diagnostic, as produced by `resp.Diagnostics.AddError(summary, detail)`. -/
structure Diag where
  severity : Severity
  summary : String
  detail : String
deriving DecidableEq, Repr

/-- `Diagnostics.HasError` of the plugin framework: true when some diagnostic
has error severity. -/
def hasError (ds : List Diag) : Bool :=
  ds.any fun d =>
    match d.severity with
    | Severity.error => true
    | Severity.warning => false

/-- The framework attribute type `types.Int32`: null, unknown, or a known value. -/
inductive AttrInt32 where
  | null
  | unknown
  | value (i : Int)
deriving DecidableEq, Repr

/-- `types.Int32.ValueInt32`: the known value, or 0 on null or unknown. -/
def AttrInt32.valueInt32 : AttrInt32 → Int
  | AttrInt32.value i => i
  | AttrInt32.null => 0
  | AttrInt32.unknown => 0

/-- The framework attribute type `types.String`: null, unknown, or a known value. -/
inductive AttrString where
  | null
  | unknown
  | value (s : String)
deriving DecidableEq, Repr

/-- `types.String.ValueString`: the known value, or the empty string on null or unknown. -/
def AttrString.valueString : AttrString → String
  | AttrString.value s => s
  | AttrString.null => ""
  | AttrString.unknown => ""

/-- Left-pad the decimal rendering of a natural number with zeros to `width`. -/
def padNat (width n : Nat) : String :=
  let s := toString n
  if s.length < width then String.mk (List.replicate (width - s.length) '0') ++ s
  else s

/-- A broken-down `time.Time` value: calendar fields plus the zone offset
from UTC in minutes. -/
structure GoTime where
  year : Nat
  month : Nat
  day : Nat
  hour : Nat
  minute : Nat
  second : Nat
  offsetMinutes : Int
deriving DecidableEq, Repr

/-- `t.Format(time.RFC3339)`: layout `2006-01-02T15:04:05Z07:00`, with `Z`
for a zero zone offset. -/
def GoTime.format (t : GoTime) : String :=
  let date := padNat 4 t.year ++ "-" ++ padNat 2 t.month ++ "-" ++ padNat 2 t.day
  let tod := padNat 2 t.hour ++ ":" ++ padNat 2 t.minute ++ ":" ++ padNat 2 t.second
  let off :=
    if t.offsetMinutes = 0 then "Z"
    else
      (if t.offsetMinutes < 0 then "-" else "+") ++
        padNat 2 (t.offsetMinutes.natAbs / 60) ++ ":" ++ padNat 2 (t.offsetMinutes.natAbs % 60)
  date ++ "T" ++ tod ++ off

/-- `strconv.FormatInt(i, 10)`: the decimal rendering of an integer. -/
def formatIntDec (i : Int) : String := toString i

/-- The remote entity `pterodactyl.User`: all seven attributes. -/
structure User where
  id : Int
  username : String
  email : String
  firstName : String
  lastName : String
  createdAt : GoTime
  updatedAt : GoTime
deriving DecidableEq, Repr

/-- The remote payload `pterodactyl.PartialUser`: only the four
user-declared fields. -/
structure PartialUser where
  username : String
  email : String
  firstName : String
  lastName : String
deriving DecidableEq, Repr

/-- The remote API client `pterodactyl.Client`: five operations, each `Except`
result modelling the Go `(value, err)` pair with the error text. -/
structure Client where
  createUser : PartialUser → Except String User
  getUser : Int → Except String User
  getUserUsername : String → Except String User
  updateUser : Int → PartialUser → Except String User
  deleteUser : Int → Option String

/-- `userResourceModel`: the schema record held in plan and state. -/
structure userResourceModel where
  id : AttrInt32
  username : AttrString
  email : AttrString
  firstName : AttrString
  lastName : AttrString
  createdAt : AttrString
  updatedAt : AttrString
deriving DecidableEq, Repr

/-- The outcome of `req.Plan.Get` or `req.State.Get`: the diagnostics it
appended and the decoded record. -/
structure DecodeResult where
  diags : List Diag
  model : userResourceModel
deriving DecidableEq, Repr

/-- What a lifecycle method leaves in its response: the appended diagnostics
and the record written to `resp.State` (`none` when no record was written). -/
structure OpResponse where
  diagnostics : List Diag
  state : Option userResourceModel
deriving DecidableEq, Repr

/-- A remote call issued by a lifecycle method, recorded for tracing. -/
inductive RemoteCall where
  | createUser (p : PartialUser)
  | getUser (id : Int)
  | getUserUsername (username : String)
  | updateUser (id : Int) (p : PartialUser)
  | deleteUser (id : Int)
deriving DecidableEq, Repr

/-- The partial payload built by `Create` (user_resource.go lines 105-110)
from the plan. -/
def createPartialUser (plan : userResourceModel) : PartialUser :=
  { username := plan.username.valueString
    email := plan.email.valueString
    firstName := plan.firstName.valueString
    lastName := plan.lastName.valueString }

/-- The partial payload built by `Update` (user_resource.go lines 180-185)
from the plan; the same four-field shape as in `Create`, username included. -/
def updatePartialUser (plan : userResourceModel) : PartialUser :=
  { username := plan.username.valueString
    email := plan.email.valueString
    firstName := plan.firstName.valueString
    lastName := plan.lastName.valueString }

/-- `userResource.Create` (lines 95-133): decode the plan, send the partial
payload to the remote create, then assign `id` and `created_at` from the
response and `updated_at` from the local clock `now`. -/
def userResource.Create (c : Client) (now : GoTime) (req : DecodeResult) :
    OpResponse × List RemoteCall :=
  if hasError req.diags then ({ diagnostics := req.diags, state := none }, [])
  else
    match c.createUser (createPartialUser req.model) with
    | Except.error err =>
        ({ diagnostics := req.diags ++
            [⟨Severity.error, "Error creating user",
              "Could not create user, unexpected error: " ++ err⟩]
           state := none },
         [RemoteCall.createUser (createPartialUser req.model)])
    | Except.ok user =>
        ({ diagnostics := req.diags
           state := some { req.model with
            id := AttrInt32.value user.id
            createdAt := AttrString.value user.createdAt.format
            updatedAt := AttrString.value now.format } },
         [RemoteCall.createUser (createPartialUser req.model)])

/-- `userResource.Read` (lines 136-168): decode the state, fetch by id, then
overwrite `email`, `first_name`, `last_name`, `updated_at`, `created_at`
from the remote payload, keeping `username` and `id`. -/
def userResource.Read (c : Client) (req : DecodeResult) :
    OpResponse × List RemoteCall :=
  if hasError req.diags then ({ diagnostics := req.diags, state := none }, [])
  else
    match c.getUser req.model.id.valueInt32 with
    | Except.error err =>
        ({ diagnostics := req.diags ++
            [⟨Severity.error, "Error Reading Pterodactyl User",
              "Could not read Pterodactyl user ID " ++
                formatIntDec req.model.id.valueInt32 ++ ": " ++ err⟩]
           state := none },
         [RemoteCall.getUser req.model.id.valueInt32])
    | Except.ok user =>
        ({ diagnostics := req.diags
           state := some { req.model with
            email := AttrString.value user.email
            firstName := AttrString.value user.firstName
            lastName := AttrString.value user.lastName
            updatedAt := AttrString.value user.updatedAt.format
            createdAt := AttrString.value user.createdAt.format } },
         [RemoteCall.getUser req.model.id.valueInt32])

/-- `userResource.Update` (lines 170-208): decode the plan, send the partial
payload to the remote update by id, then overwrite `email`, `first_name`,
`last_name`, `updated_at` from the response, keeping `id`, `created_at`
and `username`. -/
def userResource.Update (c : Client) (req : DecodeResult) :
    OpResponse × List RemoteCall :=
  if hasError req.diags then ({ diagnostics := req.diags, state := none }, [])
  else
    match c.updateUser req.model.id.valueInt32 (updatePartialUser req.model) with
    | Except.error err =>
        ({ diagnostics := req.diags ++
            [⟨Severity.error, "Error Updating Pterodactyl User",
              "Could not update user, unexpected error: " ++ err⟩]
           state := none },
         [RemoteCall.updateUser req.model.id.valueInt32 (updatePartialUser req.model)])
    | Except.ok user =>
        ({ diagnostics := req.diags
           state := some { req.model with
            email := AttrString.value user.email
            firstName := AttrString.value user.firstName
            lastName := AttrString.value user.lastName
            updatedAt := AttrString.value user.updatedAt.format } },
         [RemoteCall.updateUser req.model.id.valueInt32 (updatePartialUser req.model)])

/-- `userResource.Delete` (lines 211-229): decode the state and delete by id;
the method never writes a record to `resp.State`. -/
def userResource.Delete (c : Client) (req : DecodeResult) :
    OpResponse × List RemoteCall :=
  if hasError req.diags then ({ diagnostics := req.diags, state := none }, [])
  else
    match c.deleteUser req.model.id.valueInt32 with
    | some err =>
        ({ diagnostics := req.diags ++
            [⟨Severity.error, "Error Deleting Pterodactyl User",
              "Could not delete user, unexpected error: " ++ err⟩]
           state := none },
         [RemoteCall.deleteUser req.model.id.valueInt32])
    | none =>
        ({ diagnostics := req.diags, state := none },
         [RemoteCall.deleteUser req.model.id.valueInt32])

/-- `userResource.ImportState` (lines 253-282): fetch by the username given
as the import id and build the full record entirely from the remote payload. -/
def userResource.ImportState (c : Client) (username : String) :
    OpResponse × List RemoteCall :=
  match c.getUserUsername username with
  | Except.error err =>
      ({ diagnostics :=
          [⟨Severity.error, "Error Importing Pterodactyl User",
            "Could not import user: " ++ err⟩]
         state := none },
       [RemoteCall.getUserUsername username])
  | Except.ok user =>
      ({ diagnostics := []
         state := some
          { id := AttrInt32.value user.id
            username := AttrString.value user.username
            email := AttrString.value user.email
            firstName := AttrString.value user.firstName
            lastName := AttrString.value user.lastName
            createdAt := AttrString.value user.createdAt.format
            updatedAt := AttrString.value user.updatedAt.format } },
       [RemoteCall.getUserUsername username])

/-- The injected `req.ProviderData` handle: the expected client type, or a
value of some other dynamic type (named by its Go type string). -/
inductive ProviderData where
  | client (c : Client)
  | other (typeName : String)

/-- The resource implementation: its only field is the remote client pointer,
nil until `Configure` stores one. -/
structure userResource where
  client : Option Client

/-- `userResource.Configure` (lines 232-251): nil provider data returns
silently; a wrong-typed handle adds an error diagnostic and leaves the
client field untouched; the expected type is stored. -/
def userResource.Configure (r : userResource) (pd : Option ProviderData) :
    userResource × List Diag :=
  match pd with
  | none => (r, [])
  | some (ProviderData.client c) => ({ client := some c }, [])
  | some (ProviderData.other t) =>
      (r, [⟨Severity.error, "Unexpected Data Source Configure Type",
        "Expected *pterodactyl.Client, got: " ++ t ++
          ". Please report this issue to the provider developers."⟩])

/-- A sample creation timestamp (UTC). -/
def sampleCreated : GoTime := ⟨2024, 1, 1, 0, 0, 0, 0⟩

/-- A sample update timestamp (UTC). -/
def sampleUpdated : GoTime := ⟨2024, 1, 2, 3, 4, 5, 0⟩

/-- A sample local clock value with a nonzero zone offset. -/
def sampleNow : GoTime := ⟨2024, 5, 6, 7, 8, 9, 120⟩

/-- A sample remote entity. -/
def sampleUser : User :=
  ⟨42, "alice", "a@x.com", "A", "L", sampleCreated, sampleUpdated⟩

/-- A sample plan record as decoded before Create or Update. -/
def samplePlan : userResourceModel :=
  ⟨AttrInt32.value 7, AttrString.value "alice", AttrString.value "a@x.com",
   AttrString.value "A", AttrString.value "L", AttrString.unknown, AttrString.unknown⟩

/-- A sample prior-state record whose username differs from the remote one. -/
def sampleState : userResourceModel :=
  ⟨AttrInt32.value 42, AttrString.value "zed", AttrString.value "z@x.com",
   AttrString.value "Z", AttrString.value "Q", AttrString.value "c", AttrString.value "u"⟩

/-- A client whose every call succeeds with `sampleUser`. -/
def okClient : Client :=
  { createUser := fun _ => Except.ok sampleUser
    getUser := fun _ => Except.ok sampleUser
    getUserUsername := fun _ => Except.ok sampleUser
    updateUser := fun _ _ => Except.ok sampleUser
    deleteUser := fun _ => none }

/-- A client whose every call fails with the error text "boom". -/
def failClient : Client :=
  { createUser := fun _ => Except.error "boom"
    getUser := fun _ => Except.error "boom"
    getUserUsername := fun _ => Except.error "boom"
    updateUser := fun _ _ => Except.error "boom"
    deleteUser := fun _ => some "boom" }

/-- A client whose fetch-by-username answers with a username ("bob") other
than the lookup key. -/
def driftClient : Client :=
  { okClient with
    getUserUsername := fun _ => Except.ok { sampleUser with username := "bob" } }

/-- Claim C1: for every desired record with the four user-declared fields
populated, a successful Create returns a record whose id and created_at
equal the remote create response values, whose updated_at is the current
local clock rendered in RFC 3339, and whose username, email, first_name
and last_name equal the desired values. -/
theorem create_success_fields (c : Client) (now : GoTime) (ds : List Diag)
    (plan : userResourceModel) (user : User)
    (hds : hasError ds = false)
    (hok : c.createUser (createPartialUser plan) = Except.ok user) :
    (userResource.Create c now ⟨ds, plan⟩).fst.state = some
      { id := AttrInt32.value user.id
        username := plan.username
        email := plan.email
        firstName := plan.firstName
        lastName := plan.lastName
        createdAt := AttrString.value user.createdAt.format
        updatedAt := AttrString.value now.format } := by
  simp [userResource.Create, hds, hok]

/-- Claim C1 witness: the Create success theorem at concrete inputs. -/
theorem create_success_fields_witness :
    hasError [] = false ∧
    okClient.createUser (createPartialUser samplePlan) = Except.ok sampleUser ∧
    (userResource.Create okClient sampleNow ⟨[], samplePlan⟩).fst.state = some
      { id := AttrInt32.value sampleUser.id
        username := samplePlan.username
        email := samplePlan.email
        firstName := samplePlan.firstName
        lastName := samplePlan.lastName
        createdAt := AttrString.value sampleUser.createdAt.format
        updatedAt := AttrString.value sampleNow.format } :=
  ⟨rfl, rfl, create_success_fields okClient sampleNow [] samplePlan sampleUser rfl rfl⟩

/-- Claim C2: for every input record with id populated, a successful Read
returns a record whose email, first_name, last_name, created_at and
updated_at come from the remote fetch-by-id payload, while username and id
are retained from the input record, whatever username the payload carries. -/
theorem read_success_fields (c : Client) (ds : List Diag)
    (st : userResourceModel) (user : User)
    (hds : hasError ds = false)
    (hok : c.getUser st.id.valueInt32 = Except.ok user) :
    (userResource.Read c ⟨ds, st⟩).fst.state = some
      { id := st.id
        username := st.username
        email := AttrString.value user.email
        firstName := AttrString.value user.firstName
        lastName := AttrString.value user.lastName
        createdAt := AttrString.value user.createdAt.format
        updatedAt := AttrString.value user.updatedAt.format } := by
  simp [userResource.Read, hds, hok]

/-- Claim C2 witness: the Read success theorem at concrete inputs whose
state username ("zed") differs from the remote payload username ("alice"). -/
theorem read_success_fields_witness :
    hasError [] = false ∧
    okClient.getUser sampleState.id.valueInt32 = Except.ok sampleUser ∧
    sampleUser.username ≠ sampleState.username.valueString ∧
    (userResource.Read okClient ⟨[], sampleState⟩).fst.state = some
      { id := sampleState.id
        username := sampleState.username
        email := AttrString.value sampleUser.email
        firstName := AttrString.value sampleUser.firstName
        lastName := AttrString.value sampleUser.lastName
        createdAt := AttrString.value sampleUser.createdAt.format
        updatedAt := AttrString.value sampleUser.updatedAt.format } :=
  ⟨rfl, rfl, by decide,
   read_success_fields okClient [] sampleState sampleUser rfl rfl⟩

/-- Claim C3: for every full desired record with id, a successful Update
returns a record whose email, first_name, last_name and updated_at come
from the remote update response, while id, created_at and username are
left exactly as in the input record. -/
theorem update_success_fields (c : Client) (ds : List Diag)
    (plan : userResourceModel) (user : User)
    (hds : hasError ds = false)
    (hok : c.updateUser plan.id.valueInt32 (updatePartialUser plan) =
      Except.ok user) :
    (userResource.Update c ⟨ds, plan⟩).fst.state = some
      { id := plan.id
        username := plan.username
        email := AttrString.value user.email
        firstName := AttrString.value user.firstName
        lastName := AttrString.value user.lastName
        createdAt := plan.createdAt
        updatedAt := AttrString.value user.updatedAt.format } := by
  simp [userResource.Update, hds, hok]

/-- Claim C3 witness: the Update frame theorem at concrete inputs. -/
theorem update_success_fields_witness :
    hasError [] = false ∧
    okClient.updateUser samplePlan.id.valueInt32 (updatePartialUser samplePlan) =
      Except.ok sampleUser ∧
    (userResource.Update okClient ⟨[], samplePlan⟩).fst.state = some
      { id := samplePlan.id
        username := samplePlan.username
        email := AttrString.value sampleUser.email
        firstName := AttrString.value sampleUser.firstName
        lastName := AttrString.value sampleUser.lastName
        createdAt := samplePlan.createdAt
        updatedAt := AttrString.value sampleUser.updatedAt.format } :=
  ⟨rfl, rfl, update_success_fields okClient [] samplePlan sampleUser rfl rfl⟩

/-- Claim C4 counterexample: at the sample plan, the single remote update
call carries a payload whose username field is populated ("alice"), so the
claim that the update payload does not contain the username is false. -/
theorem update_payload_username_counterexample :
    (userResource.Update okClient ⟨[], samplePlan⟩).snd =
      [RemoteCall.updateUser 7 ⟨"alice", "a@x.com", "A", "L"⟩] ∧
    ("alice" : String) ≠ "" :=
  ⟨rfl, by decide⟩

/-- Claim C4 (amended): for every Update invocation that reaches the remote
call, the partial payload sent to the remote update call is the four-field
shape also used by Create, and its username field is populated with the
plan username value. -/
theorem update_payload_contains_username (c : Client) (ds : List Diag)
    (plan : userResourceModel) (hds : hasError ds = false) :
    (userResource.Update c ⟨ds, plan⟩).snd =
      [RemoteCall.updateUser plan.id.valueInt32 (updatePartialUser plan)] ∧
    (updatePartialUser plan).username = plan.username.valueString := by
  refine ⟨?_, rfl⟩
  unfold userResource.Update
  cases h : c.updateUser plan.id.valueInt32 (updatePartialUser plan) <;>
    simp [hds, h]

/-- Claim C4 (amended) witness at concrete inputs. -/
theorem update_payload_contains_username_witness :
    hasError [] = false ∧
    (userResource.Update okClient ⟨[], samplePlan⟩).snd =
      [RemoteCall.updateUser samplePlan.id.valueInt32 (updatePartialUser samplePlan)] ∧
    (updatePartialUser samplePlan).username = samplePlan.username.valueString :=
  ⟨rfl, (update_payload_contains_username okClient [] samplePlan rfl).1,
    (update_payload_contains_username okClient [] samplePlan rfl).2⟩

/-- Claim C5 counterexample: importing the key "alice" against a remote
that answers with username "bob" succeeds but yields a record whose
username is "bob", not the supplied lookup key. -/
theorem import_username_counterexample :
    (userResource.ImportState driftClient "alice").fst.state = some
      { id := AttrInt32.value 42
        username := AttrString.value "bob"
        email := AttrString.value "a@x.com"
        firstName := AttrString.value "A"
        lastName := AttrString.value "L"
        createdAt := AttrString.value "2024-01-01T00:00:00Z"
        updatedAt := AttrString.value "2024-01-02T03:04:05Z" } ∧
    AttrString.value "bob" ≠ AttrString.value "alice" :=
  ⟨rfl, by decide⟩

/-- Claim C5 (amended): for every username key, a successful Import produces
a record in which every field, the username included, is populated from the
remote fetch-by-username payload (so the username equals the lookup key
exactly when the remote echoes it back), never a partially populated
record; on failure no record is produced. -/
theorem import_full_record (c : Client) (key : String) :
    (∀ user, c.getUserUsername key = Except.ok user →
      (userResource.ImportState c key).fst.state = some
        { id := AttrInt32.value user.id
          username := AttrString.value user.username
          email := AttrString.value user.email
          firstName := AttrString.value user.firstName
          lastName := AttrString.value user.lastName
          createdAt := AttrString.value user.createdAt.format
          updatedAt := AttrString.value user.updatedAt.format }) ∧
    (∀ err, c.getUserUsername key = Except.error err →
      (userResource.ImportState c key).fst.state = none) := by
  constructor
  · intro user h
    simp [userResource.ImportState, h]
  · intro err h
    simp [userResource.ImportState, h]

/-- Claim C5 (amended) witness: success at the echoing client, failure at
the failing client. -/
theorem import_full_record_witness :
    okClient.getUserUsername "alice" = Except.ok sampleUser ∧
    (userResource.ImportState okClient "alice").fst.state = some
      { id := AttrInt32.value sampleUser.id
        username := AttrString.value sampleUser.username
        email := AttrString.value sampleUser.email
        firstName := AttrString.value sampleUser.firstName
        lastName := AttrString.value sampleUser.lastName
        createdAt := AttrString.value sampleUser.createdAt.format
        updatedAt := AttrString.value sampleUser.updatedAt.format } ∧
    failClient.getUserUsername "alice" = Except.error "boom" ∧
    (userResource.ImportState failClient "alice").fst.state = none :=
  ⟨rfl, (import_full_record okClient "alice").1 sampleUser rfl,
   rfl, (import_full_record failClient "alice").2 "boom" rfl⟩

/-- A failed operation surfaced the remote error: no record was written to
state, and an error-severity diagnostic was added whose summary is a
nonempty human-readable text and whose detail is a nonempty human-readable
text followed by the underlying error text. -/
def surfacesFailure (resp : OpResponse) (err : String) : Prop :=
  resp.state = none ∧
    ∃ d ∈ resp.diagnostics, d.severity = Severity.error ∧ d.summary ≠ "" ∧
      ∃ pre, pre ≠ "" ∧ d.detail = pre ++ err

/-- Appending an error diagnostic of the wrapped shape to a response with no
state surfaces the failure. -/
theorem surfacesFailure_append (ds : List Diag) (sm pre err : String)
    (hsm : sm ≠ "") (hpre : pre ≠ "") :
    surfacesFailure ⟨ds ++ [⟨Severity.error, sm, pre ++ err⟩], none⟩ err :=
  ⟨rfl, ⟨Severity.error, sm, pre ++ err⟩,
    List.mem_append_right _ (List.mem_singleton.mpr rfl),
    rfl, hsm, pre, hpre, rfl⟩

/-- Claim C6: for every lifecycle operation and every failing remote call,
the operation adds an error diagnostic whose detail is a human-readable
text followed by the underlying error text, and writes no record to state,
leaving the host-visible prior state untouched. -/
theorem failure_atomic (c : Client) (now : GoTime) (ds : List Diag)
    (m : userResourceModel) (key err : String) (hds : hasError ds = false) :
    (c.createUser (createPartialUser m) = Except.error err →
      surfacesFailure (userResource.Create c now ⟨ds, m⟩).fst err) ∧
    (c.getUser m.id.valueInt32 = Except.error err →
      surfacesFailure (userResource.Read c ⟨ds, m⟩).fst err) ∧
    (c.updateUser m.id.valueInt32 (updatePartialUser m) = Except.error err →
      surfacesFailure (userResource.Update c ⟨ds, m⟩).fst err) ∧
    (c.deleteUser m.id.valueInt32 = some err →
      surfacesFailure (userResource.Delete c ⟨ds, m⟩).fst err) ∧
    (c.getUserUsername key = Except.error err →
      surfacesFailure (userResource.ImportState c key).fst err) := by
  refine ⟨fun h => ?_, fun h => ?_, fun h => ?_, fun h => ?_, fun h => ?_⟩
  · have hr : (userResource.Create c now ⟨ds, m⟩).fst =
        ⟨ds ++ [⟨Severity.error, "Error creating user",
          "Could not create user, unexpected error: " ++ err⟩], none⟩ := by
      simp [userResource.Create, hds, h]
    rw [hr]
    exact surfacesFailure_append ds _ _ err (by decide) (by decide)
  · have hr : (userResource.Read c ⟨ds, m⟩).fst =
        ⟨ds ++ [⟨Severity.error, "Error Reading Pterodactyl User",
          "Could not read Pterodactyl user ID " ++ formatIntDec m.id.valueInt32
            ++ ": " ++ err⟩], none⟩ := by
      simp [userResource.Read, hds, h]
    rw [hr]
    have hpre : "Could not read Pterodactyl user ID " ++
        formatIntDec m.id.valueInt32 ++ ": " ≠ "" := by
      intro hc
      have hl := congrArg String.length hc
      simp [String.length_append] at hl
      exact absurd hl.2 (by decide)
    have := surfacesFailure_append ds "Error Reading Pterodactyl User"
      ("Could not read Pterodactyl user ID " ++ formatIntDec m.id.valueInt32
        ++ ": ") err (by decide) hpre
    simpa [String.append_assoc] using this
  · have hr : (userResource.Update c ⟨ds, m⟩).fst =
        ⟨ds ++ [⟨Severity.error, "Error Updating Pterodactyl User",
          "Could not update user, unexpected error: " ++ err⟩], none⟩ := by
      simp [userResource.Update, hds, h]
    rw [hr]
    exact surfacesFailure_append ds _ _ err (by decide) (by decide)
  · have hr : (userResource.Delete c ⟨ds, m⟩).fst =
        ⟨ds ++ [⟨Severity.error, "Error Deleting Pterodactyl User",
          "Could not delete user, unexpected error: " ++ err⟩], none⟩ := by
      simp [userResource.Delete, hds, h]
    rw [hr]
    exact surfacesFailure_append ds _ _ err (by decide) (by decide)
  · have hr : (userResource.ImportState c key).fst =
        ⟨[] ++ [⟨Severity.error, "Error Importing Pterodactyl User",
          "Could not import user: " ++ err⟩], none⟩ := by
      simp [userResource.ImportState, h]
    rw [hr]
    exact surfacesFailure_append [] _ _ err (by decide) (by decide)

/-- Claim C6 witness: the failure theorem applied to the failing client at
concrete inputs, for all five lifecycle operations. -/
theorem failure_atomic_witness :
    hasError [] = false ∧
    failClient.createUser (createPartialUser samplePlan) = Except.error "boom" ∧
    surfacesFailure (userResource.Create failClient sampleNow ⟨[], samplePlan⟩).fst "boom" ∧
    surfacesFailure (userResource.Read failClient ⟨[], samplePlan⟩).fst "boom" ∧
    surfacesFailure (userResource.Update failClient ⟨[], samplePlan⟩).fst "boom" ∧
    surfacesFailure (userResource.Delete failClient ⟨[], samplePlan⟩).fst "boom" ∧
    surfacesFailure (userResource.ImportState failClient "alice").fst "boom" :=
  ⟨rfl, rfl,
   (failure_atomic failClient sampleNow [] samplePlan "alice" "boom" rfl).1 rfl,
   (failure_atomic failClient sampleNow [] samplePlan "alice" "boom" rfl).2.1 rfl,
   (failure_atomic failClient sampleNow [] samplePlan "alice" "boom" rfl).2.2.1 rfl,
   (failure_atomic failClient sampleNow [] samplePlan "alice" "boom" rfl).2.2.2.1 rfl,
   (failure_atomic failClient sampleNow [] samplePlan "alice" "boom" rfl).2.2.2.2 rfl⟩

/-- Claim C7: when the remote fetch-by-id fails, Read adds a read-error
diagnostic whose detail carries the decimal rendering of the numeric id of
the input record. -/
theorem read_failure_mentions_id (c : Client) (ds : List Diag)
    (st : userResourceModel) (err : String)
    (hds : hasError ds = false)
    (hfail : c.getUser st.id.valueInt32 = Except.error err) :
    (userResource.Read c ⟨ds, st⟩).fst.diagnostics =
      ds ++ [⟨Severity.error, "Error Reading Pterodactyl User",
        "Could not read Pterodactyl user ID " ++ formatIntDec st.id.valueInt32
          ++ ": " ++ err⟩] := by
  simp [userResource.Read, hds, hfail]

/-- Claim C7 witness: at id 42 the diagnostic detail carries "42". -/
theorem read_failure_mentions_id_witness :
    hasError [] = false ∧
    failClient.getUser sampleState.id.valueInt32 = Except.error "boom" ∧
    formatIntDec sampleState.id.valueInt32 = "42" ∧
    (userResource.Read failClient ⟨[], sampleState⟩).fst.diagnostics =
      [] ++ [⟨Severity.error, "Error Reading Pterodactyl User",
        "Could not read Pterodactyl user ID " ++ formatIntDec sampleState.id.valueInt32
          ++ ": " ++ "boom"⟩] :=
  ⟨rfl, rfl, rfl, read_failure_mentions_id failClient [] sampleState "boom" rfl rfl⟩

/-- Claim C8: configuring with a non-nil provider data handle of a type
other than the expected client type adds an error diagnostic and leaves the
client field unset. -/
theorem configure_mismatch (r : userResource) (t : String)
    (h : r.client = none) :
    (userResource.Configure r (some (ProviderData.other t))).fst.client = none ∧
    (userResource.Configure r (some (ProviderData.other t))).snd =
      [⟨Severity.error, "Unexpected Data Source Configure Type",
        "Expected *pterodactyl.Client, got: " ++ t ++
          ". Please report this issue to the provider developers."⟩] :=
  ⟨h, rfl⟩

/-- Claim C8 witness: a fresh reconciler configured with a handle of Go type
string. -/
theorem configure_mismatch_witness :
    (userResource.mk none).client = none ∧
    (userResource.Configure ⟨none⟩ (some (ProviderData.other "string"))).fst.client = none ∧
    (userResource.Configure ⟨none⟩ (some (ProviderData.other "string"))).snd =
      [⟨Severity.error, "Unexpected Data Source Configure Type",
        "Expected *pterodactyl.Client, got: " ++ "string" ++
          ". Please report this issue to the provider developers."⟩] :=
  ⟨rfl, (configure_mismatch ⟨none⟩ "string" rfl).1,
    (configure_mismatch ⟨none⟩ "string" rfl).2⟩

/-- Claim C9: when decoding the incoming plan or state yields error
diagnostics, Create, Read, Update and Delete each return at once with those
diagnostics, write no record, and issue no remote call of any kind. -/
theorem decode_error_no_remote_call (c : Client) (now : GoTime)
    (ds : List Diag) (m : userResourceModel) (hds : hasError ds = true) :
    userResource.Create c now ⟨ds, m⟩ = ({ diagnostics := ds, state := none }, []) ∧
    userResource.Read c ⟨ds, m⟩ = ({ diagnostics := ds, state := none }, []) ∧
    userResource.Update c ⟨ds, m⟩ = ({ diagnostics := ds, state := none }, []) ∧
    userResource.Delete c ⟨ds, m⟩ = ({ diagnostics := ds, state := none }, []) := by
  refine ⟨?_, ?_, ?_, ?_⟩ <;>
    simp [userResource.Create, userResource.Read, userResource.Update,
      userResource.Delete, hds]

/-- Claim C9 witness: a decode-error diagnostic list at the failing client;
no remote call appears in any trace. -/
theorem decode_error_no_remote_call_witness :
    hasError [⟨Severity.error, "bad plan", "decode failed"⟩] = true ∧
    userResource.Create failClient sampleNow
        ⟨[⟨Severity.error, "bad plan", "decode failed"⟩], samplePlan⟩ =
      ({ diagnostics := [⟨Severity.error, "bad plan", "decode failed"⟩],
         state := none }, []) ∧
    userResource.Read failClient
        ⟨[⟨Severity.error, "bad plan", "decode failed"⟩], samplePlan⟩ =
      ({ diagnostics := [⟨Severity.error, "bad plan", "decode failed"⟩],
         state := none }, []) ∧
    userResource.Update failClient
        ⟨[⟨Severity.error, "bad plan", "decode failed"⟩], samplePlan⟩ =
      ({ diagnostics := [⟨Severity.error, "bad plan", "decode failed"⟩],
         state := none }, []) ∧
    userResource.Delete failClient
        ⟨[⟨Severity.error, "bad plan", "decode failed"⟩], samplePlan⟩ =
      ({ diagnostics := [⟨Severity.error, "bad plan", "decode failed"⟩],
         state := none }, []) :=
  ⟨rfl,
   (decode_error_no_remote_call failClient sampleNow
     [⟨Severity.error, "bad plan", "decode failed"⟩] samplePlan (by decide)).1,
   (decode_error_no_remote_call failClient sampleNow
     [⟨Severity.error, "bad plan", "decode failed"⟩] samplePlan (by decide)).2.1,
   (decode_error_no_remote_call failClient sampleNow
     [⟨Severity.error, "bad plan", "decode failed"⟩] samplePlan (by decide)).2.2.1,
   (decode_error_no_remote_call failClient sampleNow
     [⟨Severity.error, "bad plan", "decode failed"⟩] samplePlan (by decide)).2.2.2⟩

/-- Claim C10: configuring with a nil provider data handle returns silently,
with no diagnostic and the client field left as it was. -/
theorem configure_nil_silent (r : userResource) :
    userResource.Configure r none = (r, []) := rfl

end Pterodactyl
